import Mathlib

/-!
Verification of `run.py` (tuya-iot-core-reminder): a shallow embedding of the
date/time parsing helper, the notification scheduler and the discovery
diagnostic, together with theorems settling the specification claims.

Modelling conventions:
* Absolute instants are Unix epoch seconds as `Int` (the code works in UTC
  throughout: `load_config` passes `tz_name="UTC"` and the loop uses
  `datetime.now(timezone.utc)`, so `tz.localize` is the identity annotation).
* Python floats never matter here: `total_seconds() / 86400` followed by
  `math.ceil` is modelled as the exact rational ceiling.
* Library calls (`dateutil`, `strptime`, `requests`, `str.split`, `re.split`)
  are modelled by explicit Lean functions on the input domains the program
  exercises; each such model carries a doc comment saying what it models.
* Side effects (HTTP requests, sleeps) are reified as events in a trace; an
  uncaught Python exception is an `Except.error`.
-/

/-- Outcome of one `requests.post` attempt in `_send_push`: an HTTP status
code, or a raised transport exception (caught by the `except` clause). -/
inductive AttemptOutcome where
  | status (code : Nat)
  | exc
  deriving DecidableEq, Repr

/-- The only uncaught Python exception the embedded code can surface:
`ValueError` from the tuple unpacking `domain, service = notify_service.split(".")`. -/
inductive PyError where
  | valueError
  deriving DecidableEq, Repr

deriving instance DecidableEq for Except

/-- `remaining_days_total = ceil((self.expiry_dt - now).total_seconds() / 86400)`
(run.py lines 94, 105 and 253), with instants in epoch seconds. -/
def remainingDaysTotal (now expiry : Int) : Int :=
  Int.ceil (((expiry - now : Int) : ℚ) / 86400)

/-- `NotificationScheduler._compose_message` (run.py lines 114-121). -/
def compose_message (days : Int) : String :=
  if days < 0 then "Tuya IOT expired"
  else if days = 0 then "Tuya IOT expires today"
  else "Tuya IOT expires in " ++ toString days ++ " days"

/-- The ceiling in `remainingDaysTotal` characterised by integer bounds. -/
theorem remainingDaysTotal_eq_iff (now expiry d : Int) :
    remainingDaysTotal now expiry = d ↔
      (d - 1) * 86400 < expiry - now ∧ expiry - now ≤ d * 86400 := by
  unfold remainingDaysTotal
  rw [Int.ceil_eq_iff, lt_div_iff₀ (by norm_num : (0:ℚ) < 86400),
    div_le_iff₀ (by norm_num : (0:ℚ) < 86400)]
  constructor
  · rintro ⟨h1, h2⟩
    exact ⟨by exact_mod_cast h1, by exact_mod_cast h2⟩
  · rintro ⟨h1, h2⟩
    exact ⟨by exact_mod_cast h1, by exact_mod_cast h2⟩

/-- Executable form of `remainingDaysTotal` (Euclidean division), used to
evaluate the model at concrete instants. -/
theorem remainingDaysTotal_eval (now expiry : Int) :
    remainingDaysTotal now expiry = -((now - expiry) / 86400) := by
  have hdm := Int.ediv_add_emod (now - expiry) 86400
  have hnn := Int.emod_nonneg (now - expiry) (by norm_num : (86400:Int) ≠ 0)
  have hlt := Int.emod_lt_of_pos (now - expiry) (by norm_num : (0:Int) < 86400)
  rw [remainingDaysTotal_eq_iff]
  constructor <;> linarith

-- ==================== Calendar helpers ====================

/-- Gregorian leap-year test (as used by `datetime` / `dateutil`). -/
def isLeapYear (y : Nat) : Bool :=
  (y % 4 == 0 && y % 100 != 0) || y % 400 == 0

/-- Length of a month in the proleptic Gregorian calendar. -/
def daysInMonth (y m : Nat) : Nat :=
  if m = 2 then (if isLeapYear y then 29 else 28)
  else if m = 4 ∨ m = 6 ∨ m = 9 ∨ m = 11 then 30
  else 31

/-- The range checks `datetime(year, month, day)` performs. -/
def validYMD (y m d : Nat) : Bool :=
  1 ≤ y && y ≤ 9999 && 1 ≤ m && m ≤ 12 && 1 ≤ d && d ≤ daysInMonth y m

/-- Epoch day number of a Gregorian date counted from 1970-01-01 (defined for
`1970 ≤ y`); used to name concrete UTC instants in theorems. -/
def daysSinceEpoch (y m d : Nat) : Nat :=
  ((List.range (y - 1970)).map (fun i => if isLeapYear (1970 + i) then 366 else 365)).sum
    + ((List.range (m - 1)).map (fun i => daysInMonth y (i + 1))).sum
    + (d - 1)

/-- Epoch seconds of a UTC timestamp (`datetime(y, m, d, hh, mm, tzinfo=utc)`). -/
def epochSeconds (y m d hh mm : Nat) : Int :=
  86400 * (daysSinceEpoch y m d : Int) + 3600 * hh + 60 * mm

-- ==================== String/parsing primitives ====================

/-- Split a character list at every character satisfying `p`, keeping empty
segments; models both Python `str.split(sep)` with a one-character separator
and `re.split` with a character class (both keep empty fields). -/
def splitOnPred (p : Char → Bool) : List Char → List (List Char)
  | [] => [[]]
  | c :: rest =>
    let r := splitOnPred p rest
    if p c then [] :: r
    else
      match r with
      | h :: t => (c :: h) :: t
      | [] => [[c]]

theorem splitOnPred_ne_nil (p : Char → Bool) (l : List Char) :
    splitOnPred p l ≠ [] := by
  cases l with
  | nil => simp [splitOnPred]
  | cons c rest =>
    simp only [splitOnPred]
    cases h : splitOnPred p rest with
    | nil => split <;> simp
    | cons sh st => split <;> simp

/-- A split has one more segment than there are separator occurrences. -/
theorem splitOnPred_length (p : Char → Bool) (l : List Char) :
    (splitOnPred p l).length = l.countP p + 1 := by
  induction l with
  | nil => simp [splitOnPred]
  | cons c rest ih =>
    simp only [splitOnPred, List.countP_cons]
    by_cases hc : p c
    · simp only [hc, if_true, List.length_cons]
      omega
    · simp only [hc, Bool.false_eq_true, if_false]
      cases h : splitOnPred p rest with
      | nil => exact absurd h (splitOnPred_ne_nil p rest)
      | cons sh st =>
        rw [h] at ih
        simp only [List.length_cons] at ih ⊢
        omega

/-- Python `s.strip()`: remove leading and trailing whitespace. -/
def pyStrip (s : String) : String :=
  ((s.toList.dropWhile Char.isWhitespace).reverse.dropWhile Char.isWhitespace).reverse.asString

/-- Models Python `int(txt)` on the strings this program feeds it: a nonempty
run of decimal digits (anything else raises, i.e. `none`). -/
def pyInt? (cs : List Char) : Option Nat :=
  if cs ≠ [] ∧ cs.all Char.isDigit then
    some (cs.foldl (fun n c => 10 * n + (c.toNat - 48)) 0)
  else none

/-- A 1-to-`maxLen`-digit numeric field, as matched by a CPython `strptime`
directive (`%m`, `%d`, `%H`, `%M` allow 1-2 digits, `%Y` allows 1-4). -/
def fieldNat? (maxLen : Nat) (cs : List Char) : Option Nat :=
  if cs.length ≤ maxLen then pyInt? cs else none

/-- `none` unless the date is accepted by the `datetime` constructor. -/
def mkValidDate (y m d : Nat) : Option (Nat × Nat × Nat) :=
  if validYMD y m d then some (y, m, d) else none

/-- Models `dateutil.parser.isoparse` on plain calendar-date inputs: exactly
`YYYY-MM-DD` with a four-digit year, two-digit month and day, denoting a valid
date. (Other ISO-8601 forms the library accepts are outside the domain this
program is configured with and are not modelled.) -/
def isoparse (s : String) : Option (Nat × Nat × Nat) :=
  match s.toList with
  | [y1, y2, y3, y4, '-', m1, m2, '-', d1, d2] =>
    if [y1, y2, y3, y4, m1, m2, d1, d2].all Char.isDigit then
      match pyInt? [y1, y2, y3, y4], pyInt? [m1, m2], pyInt? [d1, d2] with
      | some y, some m, some d => mkValidDate y m d
      | _, _, _ => none
    else none
  | _ => none

/-- Models `datetime.strptime(s, fmt)` for a numeric three-field date format
with a fixed one-character separator: fields of at most `len0`/`len1`/`len2`
digits, the whole string consumed, and a valid resulting date. -/
def strptime3 (sep : Char) (len0 len1 len2 : Nat) (s : String) :
    Option (Nat × Nat × Nat) :=
  match splitOnPred (· == sep) s.toList with
  | [f0, f1, f2] =>
    match fieldNat? len0 f0, fieldNat? len1 f1, fieldNat? len2 f2 with
    | some a, some b, some c => some (a, b, c)
    | _, _, _ => none
  | _ => none

/-- `datetime.strptime(s, "%Y-%m-%d")`. -/
def strptimeYMD (s : String) : Option (Nat × Nat × Nat) :=
  match strptime3 '-' 4 2 2 s with
  | some (y, m, d) => mkValidDate y m d
  | none => none

/-- `datetime.strptime(s, "%m/%d/%Y")`. -/
def strptimeMDY (s : String) : Option (Nat × Nat × Nat) :=
  match strptime3 '/' 2 2 4 s with
  | some (m, d, y) => mkValidDate y m d
  | none => none

/-- `datetime.strptime(s, "%d/%m/%Y")`. -/
def strptimeDMY (s : String) : Option (Nat × Nat × Nat) :=
  match strptime3 '/' 2 2 4 s with
  | some (d, m, y) => mkValidDate y m d
  | none => none

/-- Separator class of the `re.split` call in run.py line 40: the character
class holding `.`, `-` and the slash. -/
def isDateSep (c : Char) : Bool :=
  c == '.' || c == '/' || c == '-'

/-- The `re.split` call of run.py line 40 (keeps empty fields, like Python). -/
def reSplitDate (s : String) : List (List Char) :=
  splitOnPred isDateSep s.toList

/-- Models `dateutil.parser.parse(s, dayfirst=df)` on the inputs the `auto`
branch feeds it: three numeric components separated by `.`, `/` or `-`, the
first two of 1-2 digits and the third a four-digit year. The library resolves
the first two components to (day, month): a component above 12 cannot be a
month, so it forces the assignment; only when both are at most 12 does the
`dayfirst` hint decide. Inputs outside this domain (textual months, two-digit
years, year-first forms) are not modelled (`none`). -/
def dtparse (s : String) (dayfirst : Bool) : Option (Nat × Nat × Nat) :=
  match reSplitDate s with
  | [f0, f1, f2] =>
    match fieldNat? 2 f0, fieldNat? 2 f1,
        (if f2.length = 4 then pyInt? f2 else none) with
    | some p0, some p1, some y =>
      if p0 > 12 && p1 ≤ 12 then mkValidDate y p1 p0
      else if p0 ≤ 12 && p1 > 12 then mkValidDate y p0 p1
      else if p0 ≤ 12 && p1 ≤ 12 then
        (if dayfirst then mkValidDate y p1 p0 else mkValidDate y p0 p1)
      else none
    | _, _, _ => none
  | _ => none

/-- `datetime.strptime(t, "%H:%M").time()`: 1-2 digit hour below 24 and 1-2
digit minute below 60, separated by a colon, nothing else in the string. -/
def strptimeHM (t : String) : Option (Nat × Nat) :=
  match splitOnPred (· == ':') t.toList with
  | [hs, ms] =>
    match fieldNat? 2 hs, fieldNat? 2 ms with
    | some h, some m => if h ≤ 23 ∧ m ≤ 59 then some (h, m) else none
    | _, _ => none
  | _ => none

/-- A parsed timestamp, naive calendar fields; the code localizes it to the
configured zone, which is UTC at the only call site. -/
structure PyDateTime where
  year : Nat
  month : Nat
  day : Nat
  hour : Nat
  minute : Nat
  deriving DecidableEq, Repr

/-- The date-resolution part of `parse_expiry_date` (run.py lines 22-44):
ISO parse first, then the `date_format` branch. -/
def resolveDate (s : String) (date_format : String) : Option (Nat × Nat × Nat) :=
  match isoparse s with
  | some d => some d
  | none =>
    if date_format = "iso" then strptimeYMD s
    else if date_format = "us" ∨ date_format = "eu" then
      (if date_format = "us" then strptimeMDY s else strptimeDMY s)
    else
      match reSplitDate s with
      | p0s :: p1s :: _ =>
        match pyInt? p0s, pyInt? p1s with
        | some p0, some p1 =>
          let dayfirst := p0 > 12 || (p0 ≤ 12 && p1 ≤ 12)
          dtparse s dayfirst
        | _, _ => none
      | _ => none

/-- `parse_expiry_date` (run.py lines 19-59), modelled at `tz_name = "UTC"`
(the only call, in `load_config`, passes UTC, so `tz.localize` adds the UTC
annotation without changing the fields). `none` models the raised
`ValueError "Cannot parse date"`. -/
def parse_expiry_date (date_str : String) (time_str : String)
    (date_format : String := "auto") : Option PyDateTime :=
  let s := pyStrip date_str
  let t := pyStrip (if time_str.isEmpty then "00:00" else time_str)
  match resolveDate s date_format with
  | none => none
  | some (y, m, d) =>
    let hm := (strptimeHM t).getD (0, 0)
    some ⟨y, m, d, hm.1, hm.2⟩

-- ==================== Scheduler data model ====================

/-- The fields of `NotificationScheduler` after `__init__` (run.py 65-80):
`hass_token` is `os.getenv("SUPERVISOR_TOKEN")` (`none` when the variable is
unset), the rest come from the loaded configuration; `expiry_dt` is
`config["_expiry_dt"]` as epoch seconds. -/
structure SchedulerConfig where
  hass_token : Option String
  notify_service : String
  push_count : Nat
  push_interval_min : Nat
  advance_days : List Int
  expiry_dt : Int
  debug : Bool
  deriving DecidableEq, Repr

/-- Python truthiness of the optional token string (`if not self.hass_token`):
`None` and the empty string are falsy. -/
def tokenPresent : Option String → Bool
  | none => false
  | some s => !s.isEmpty

/-- Observable side effects of `_send_push`: one HTTP POST per attempt
(with the outcome the gateway produced) and the inter-attempt sleeps. -/
inductive PushEvent where
  | post (url : String) (message : String) (outcome : AttemptOutcome)
  | sleepSec (seconds : Nat)
  deriving DecidableEq, Repr

/-- The `for i in range(self.push_count)` loop of `_send_push` (run.py
142-158), iterating over the remaining indices: every status code and every
transport exception is only logged, then the loop sleeps
`push_interval_min * 60` seconds unless `i` was the last index. -/
def sendAttemptLoop (url message : String) (count interval_min : Nat)
    (outcomes : Nat → AttemptOutcome) : List Nat → List PushEvent
  | [] => []
  | i :: rest =>
    PushEvent.post url message (outcomes i) ::
      ((if i < count - 1 then [PushEvent.sleepSec (interval_min * 60)] else []) ++
        sendAttemptLoop url message count interval_min outcomes rest)

/-- `NotificationScheduler._send_push` (run.py 123-158). Returns the trace of
HTTP/sleep events; `Except.error` is the uncaught `ValueError` raised by
`domain, service = self.notify_service.split(".")` when the split does not
yield exactly two parts (it sits outside the per-attempt `try`). -/
def send_push (cfg : SchedulerConfig) (message : String)
    (outcomes : Nat → AttemptOutcome) : Except PyError (List PushEvent) :=
  if !tokenPresent cfg.hass_token || cfg.notify_service == "" then
    Except.ok []
  else
    match splitOnPred (· == '.') cfg.notify_service.toList with
    | [domain, service] =>
      Except.ok (sendAttemptLoop
        ("http://supervisor/core/api/services/" ++ domain.asString ++ "/" ++ service.asString)
        message cfg.push_count cfg.push_interval_min outcomes
        (List.range cfg.push_count))
    | _ => Except.error PyError.valueError

/-- Observable events of `schedule_notifications`: the startup status send,
each checkpoint-triggered send (with the offset that triggered it), and the
hourly sleep closing each polling iteration. -/
inductive SchedEvent where
  | startupSend (message : String) (push : List PushEvent)
  | checkpointSend (days_before : Int) (message : String) (push : List PushEvent)
  | sleepHour
  deriving DecidableEq, Repr

/-- The `for days_before in self.advance_days` pass of one polling iteration
(run.py 96-98): a send fires exactly when `remaining = days_before`, and the
message is composed from `days_before` (`send_notification`, run.py 109-112). -/
def runCheckpoints (cfg : SchedulerConfig) (outcomes : Nat → AttemptOutcome)
    (remaining : Int) : List Int → Except PyError (List SchedEvent)
  | [] => Except.ok []
  | d :: ds =>
    if remaining = d then
      match send_push cfg (compose_message d) outcomes with
      | Except.error e => Except.error e
      | Except.ok evs =>
        match runCheckpoints cfg outcomes remaining ds with
        | Except.error e => Except.error e
        | Except.ok rest =>
          Except.ok (SchedEvent.checkpointSend d (compose_message d) evs :: rest)
    else runCheckpoints cfg outcomes remaining ds

/-- One iteration of the `while True` polling loop (run.py 92-100) at wall
clock `now`: recompute the remaining days, run the checkpoint pass, sleep
3600 seconds. -/
def pollIteration (cfg : SchedulerConfig) (outcomes : Nat → AttemptOutcome)
    (now : Int) : Except PyError (List SchedEvent) :=
  match runCheckpoints cfg outcomes (remainingDaysTotal now cfg.expiry_dt) cfg.advance_days with
  | Except.error e => Except.error e
  | Except.ok evs => Except.ok (evs ++ [SchedEvent.sleepHour])

/-- The polling loop observed over a finite list of wall-clock instants (the
real loop is unbounded; every finite prefix of iterations has this shape). -/
def pollLoop (cfg : SchedulerConfig) (outcomes : Nat → AttemptOutcome) :
    List Int → Except PyError (List SchedEvent)
  | [] => Except.ok []
  | now :: rest =>
    match pollIteration cfg outcomes now with
    | Except.error e => Except.error e
    | Except.ok evs =>
      match pollLoop cfg outcomes rest with
      | Except.error e => Except.error e
      | Except.ok evs2 => Except.ok (evs ++ evs2)

/-- `NotificationScheduler.schedule_notifications` (run.py 82-100): the
missing-token guard, then `send_current_status_notification` (run.py 102-107,
composing the message from the days remaining at `startNow`), then the
polling loop at the instants `polls`. -/
def schedule_notifications (cfg : SchedulerConfig)
    (outcomes : Nat → AttemptOutcome) (startNow : Int) (polls : List Int) :
    Except PyError (List SchedEvent) :=
  if !tokenPresent cfg.hass_token then Except.ok []
  else
    match send_push cfg (compose_message (remainingDaysTotal startNow cfg.expiry_dt)) outcomes with
    | Except.error e => Except.error e
    | Except.ok evs =>
      match pollLoop cfg outcomes polls with
      | Except.error e => Except.error e
      | Except.ok rest =>
        Except.ok (SchedEvent.startupSend
          (compose_message (remainingDaysTotal startNow cfg.expiry_dt)) evs :: rest)

-- ==================== Discovery diagnostic ====================

/-- One entry of the JSON the `/services` endpoint returns. -/
structure SupService where
  domain : String
  services : List String
  deriving DecidableEq, Repr

/-- The gateway's behaviour on one `list_mobile_apps` attempt:
a `requests.exceptions.RequestException` (including the one raised by
`raise_for_status`), some other exception, or a parsed service list. -/
inductive DiscResponse where
  | transportError
  | unexpected
  | ok (services : List SupService)

/-- Observable side effects of `list_mobile_apps`: GET requests and the
between-attempt sleeps. -/
inductive DiscEvent where
  | getRequest
  | sleepSec (seconds : Nat)
  deriving DecidableEq, Repr

/-- The list comprehension of run.py 211-216. -/
def mobileServicesOf (services : List SupService) : List String :=
  services.flatMap fun svc =>
    if svc.domain == "notify" then
      (svc.services.filter (fun s => s.startsWith "mobile_app_")).map
        (fun s => "notify." ++ s)
    else []

/-- The `while attempt <= max_attempts` retry loop of `list_mobile_apps`
(run.py 206-233), with `base_delay = 5`; `fuel` is the number of attempts
still allowed. On transport failure it sleeps `5 * attempt` seconds and
retries; on any other exception it breaks and returns `[]`. -/
def listMobileAppsLoop (responses : Nat → DiscResponse) :
    Nat → Nat → List DiscEvent × List String
  | _, 0 => ([], [])
  | attempt, fuel + 1 =>
    match responses attempt with
    | DiscResponse.ok services => ([DiscEvent.getRequest], mobileServicesOf services)
    | DiscResponse.unexpected => ([DiscEvent.getRequest], [])
    | DiscResponse.transportError =>
      let r := listMobileAppsLoop responses (attempt + 1) fuel
      (DiscEvent.getRequest :: DiscEvent.sleepSec (5 * attempt) :: r.1, r.2)

/-- `list_mobile_apps` (run.py 195-235): returns immediately with `[]` and no
request when the token is missing, else runs up to 5 attempts starting at
attempt 1. -/
def list_mobile_apps (token : Option String) (responses : Nat → DiscResponse) :
    List DiscEvent × List String :=
  if !tokenPresent token then ([], [])
  else listMobileAppsLoop responses 1 5

-- ==================== Trace observations ====================

/-- Is this push event an HTTP POST attempt? -/
def isPostEvent : PushEvent → Bool
  | PushEvent.post _ _ _ => true
  | PushEvent.sleepSec _ => false

/-- Is this push event an inter-attempt sleep? -/
def isSleepEvent : PushEvent → Bool
  | PushEvent.post _ _ _ => false
  | PushEvent.sleepSec _ => true

/-- Is this scheduler event the startup status send? -/
def isStartupEvent : SchedEvent → Bool
  | SchedEvent.startupSend _ _ => true
  | _ => false

/-- The checkpoint offsets whose notifications occur in a trace, in order
(one entry per send, so repeats across polls are visible). -/
def triggeredOffsets (evs : List SchedEvent) : List Int :=
  evs.filterMap fun e =>
    match e with
    | SchedEvent.checkpointSend d _ _ => some d
    | _ => none

/-- The service-identifier well-formedness under which `_send_push` cannot
raise: the dot-split has exactly two parts, or the service is empty (in which
case `_send_push` returns before splitting). -/
def serviceOk (cfg : SchedulerConfig) : Prop :=
  (splitOnPred (fun c => c == '.') cfg.notify_service.toList).length = 2
    ∨ cfg.notify_service = ""

-- ==================== Helper lemmas: the attempt loop ====================

theorem sendAttemptLoop_append (url msg : String) (count iv : Nat)
    (o : Nat → AttemptOutcome) (l1 l2 : List Nat) :
    sendAttemptLoop url msg count iv o (l1 ++ l2) =
      sendAttemptLoop url msg count iv o l1 ++ sendAttemptLoop url msg count iv o l2 := by
  induction l1 with
  | nil => rfl
  | cons i rest ih => simp [sendAttemptLoop, ih, List.append_assoc]

theorem sendAttemptLoop_countP_post (url msg : String) (count iv : Nat)
    (o : Nat → AttemptOutcome) (l : List Nat) :
    (sendAttemptLoop url msg count iv o l).countP isPostEvent = l.length := by
  induction l with
  | nil => rfl
  | cons i rest ih =>
    by_cases h : i < count - 1 <;>
      simp [sendAttemptLoop, h, isPostEvent, List.countP_cons, List.countP_append, ih]

theorem sendAttemptLoop_countP_sleep_all (url msg : String) (count iv : Nat)
    (o : Nat → AttemptOutcome) (l : List Nat) (h : ∀ i ∈ l, i < count - 1) :
    (sendAttemptLoop url msg count iv o l).countP isSleepEvent = l.length := by
  induction l with
  | nil => rfl
  | cons i rest ih =>
    have hi : i < count - 1 := h i (List.mem_cons_self ..)
    simp [sendAttemptLoop, hi, isSleepEvent, List.countP_cons, List.countP_append,
      ih (fun j hj => h j (List.mem_cons_of_mem _ hj))]

theorem sendAttemptLoop_sleep_val (url msg : String) (count iv : Nat)
    (o : Nat → AttemptOutcome) (l : List Nat) (s : Nat)
    (h : PushEvent.sleepSec s ∈ sendAttemptLoop url msg count iv o l) :
    s = iv * 60 := by
  induction l with
  | nil => simp [sendAttemptLoop] at h
  | cons i rest ih =>
    by_cases hi : i < count - 1 <;>
      simp only [sendAttemptLoop, hi, if_true, if_false, List.mem_cons,
        List.mem_append, List.mem_singleton, List.cons_append, List.nil_append] at h
    · rcases h with h | h | h
      · cases h
      · exact (PushEvent.sleepSec.inj h).symm ▸ rfl
      · exact ih h
    · rcases h with h | h
      · cases h
      · exact ih (by simpa using h)

theorem sendAttemptLoop_mem_post (url msg : String) (count iv : Nat)
    (o : Nat → AttemptOutcome) (l : List Nat) (i : Nat) (h : i ∈ l) :
    PushEvent.post url msg (o i) ∈ sendAttemptLoop url msg count iv o l := by
  induction l with
  | nil => cases h
  | cons j rest ih =>
    rcases List.mem_cons.mp h with rfl | h
    · simp [sendAttemptLoop]
    · simp [sendAttemptLoop, ih h]

theorem pushAttempts_post_count (url msg : String) (count iv : Nat)
    (o : Nat → AttemptOutcome) :
    (sendAttemptLoop url msg count iv o (List.range count)).countP isPostEvent = count := by
  rw [sendAttemptLoop_countP_post, List.length_range]

theorem pushAttempts_sleep_count (url msg : String) (count iv : Nat)
    (o : Nat → AttemptOutcome) :
    (sendAttemptLoop url msg count iv o (List.range count)).countP isSleepEvent = count - 1 := by
  cases count with
  | zero => rfl
  | succ n =>
    rw [List.range_succ, sendAttemptLoop_append, List.countP_append]
    have h1 : (sendAttemptLoop url msg (n + 1) iv o (List.range n)).countP isSleepEvent = n := by
      rw [sendAttemptLoop_countP_sleep_all _ _ _ _ _ _
        (fun i hi => by have := List.mem_range.mp hi; omega), List.length_range]
    have h2 : (sendAttemptLoop url msg (n + 1) iv o [n]).countP isSleepEvent = 0 := by
      simp [sendAttemptLoop, isSleepEvent]
    omega

theorem pushAttempts_getLast (url msg : String) (count iv : Nat)
    (o : Nat → AttemptOutcome) (h : 1 ≤ count) :
    (sendAttemptLoop url msg count iv o (List.range count)).getLast? =
      some (PushEvent.post url msg (o (count - 1))) := by
  cases count with
  | zero => omega
  | succ n =>
    rw [List.range_succ, sendAttemptLoop_append]
    have h2 : sendAttemptLoop url msg (n + 1) iv o [n] = [PushEvent.post url msg (o n)] := by
      simp [sendAttemptLoop]
    rw [h2, Nat.succ_sub_one, List.getLast?_concat]

-- ==================== Helper lemmas: send_push and the loop ====================

theorem notify_service_ne_empty (cfg : SchedulerConfig) (domain service : List Char)
    (hs : splitOnPred (fun c => c == '.') cfg.notify_service.toList = [domain, service]) :
    cfg.notify_service ≠ "" := by
  intro he
  rw [he] at hs
  simp [splitOnPred] at hs

theorem send_push_eq (cfg : SchedulerConfig) (msg : String)
    (outcomes : Nat → AttemptOutcome) (domain service : List Char)
    (htok : tokenPresent cfg.hass_token = true)
    (hs : splitOnPred (fun c => c == '.') cfg.notify_service.toList = [domain, service]) :
    send_push cfg msg outcomes = Except.ok (sendAttemptLoop
      ("http://supervisor/core/api/services/" ++ domain.asString ++ "/" ++ service.asString)
      msg cfg.push_count cfg.push_interval_min outcomes (List.range cfg.push_count)) := by
  have hne := notify_service_ne_empty cfg domain service hs
  unfold send_push
  rw [htok, hs]
  simp [hne]

theorem send_push_ok_of_serviceOk (cfg : SchedulerConfig) (msg : String)
    (outcomes : Nat → AttemptOutcome) (h : serviceOk cfg) :
    ∃ evs, send_push cfg msg outcomes = Except.ok evs := by
  by_cases htok : tokenPresent cfg.hass_token
  · rcases h with h | h
    · obtain ⟨domain, service, hs⟩ := List.length_eq_two.mp h
      exact ⟨_, send_push_eq cfg msg outcomes domain service htok hs⟩
    · exact ⟨[], by simp [send_push, h]⟩
  · exact ⟨[], by simp [send_push, Bool.not_eq_true _ ▸ htok]⟩

theorem runCheckpoints_spec (cfg : SchedulerConfig) (outcomes : Nat → AttemptOutcome)
    (remaining : Int) (h : serviceOk cfg) (ds : List Int) :
    ∃ evs, runCheckpoints cfg outcomes remaining ds = Except.ok evs
      ∧ triggeredOffsets evs = ds.filter (fun d => decide (remaining = d))
      ∧ evs.countP isStartupEvent = 0 := by
  induction ds with
  | nil => exact ⟨[], rfl, rfl, rfl⟩
  | cons d ds ih =>
    obtain ⟨evs, he, ht, hst⟩ := ih
    by_cases hd : remaining = d
    · subst hd
      obtain ⟨pevs, hp⟩ := send_push_ok_of_serviceOk cfg (compose_message remaining) outcomes h
      refine ⟨SchedEvent.checkpointSend remaining (compose_message remaining) pevs :: evs, ?_, ?_, ?_⟩
      · simp [runCheckpoints, hp, he]
      · simp only [triggeredOffsets, List.filterMap_cons, List.filter_cons] at ht ⊢
        simpa using ht
      · simp [List.countP_cons, isStartupEvent, hst]
    · refine ⟨evs, ?_, ?_, hst⟩
      · simp [runCheckpoints, hd, he]
      · simp [List.filter_cons, hd, ht]

theorem pollLoop_spec (cfg : SchedulerConfig) (outcomes : Nat → AttemptOutcome)
    (h : serviceOk cfg) (polls : List Int) :
    ∃ evs, pollLoop cfg outcomes polls = Except.ok evs
      ∧ triggeredOffsets evs = polls.flatMap (fun now =>
          cfg.advance_days.filter (fun d => decide (remainingDaysTotal now cfg.expiry_dt = d)))
      ∧ evs.countP isStartupEvent = 0 := by
  induction polls with
  | nil => exact ⟨[], rfl, rfl, rfl⟩
  | cons now rest ih =>
    obtain ⟨e2, he2, ht2, hs2⟩ := ih
    obtain ⟨e1, he1, ht1, hs1⟩ :=
      runCheckpoints_spec cfg outcomes (remainingDaysTotal now cfg.expiry_dt) h cfg.advance_days
    refine ⟨(e1 ++ [SchedEvent.sleepHour]) ++ e2, ?_, ?_, ?_⟩
    · simp [pollLoop, pollIteration, he1, he2]
    · simp only [triggeredOffsets, List.filterMap_append, List.flatMap_cons]
      simp only [triggeredOffsets] at ht1 ht2
      simp [ht1, ht2, List.filterMap]
    · simp only [List.countP_append, hs1, hs2]
      simp [isStartupEvent]

theorem schedule_notifications_shape (cfg : SchedulerConfig)
    (outcomes : Nat → AttemptOutcome) (startNow : Int) (polls : List Int)
    (htok : tokenPresent cfg.hass_token = true) (h : serviceOk cfg) :
    ∃ su rest, schedule_notifications cfg outcomes startNow polls =
        Except.ok (SchedEvent.startupSend
          (compose_message (remainingDaysTotal startNow cfg.expiry_dt)) su :: rest)
      ∧ triggeredOffsets rest = polls.flatMap (fun now =>
          cfg.advance_days.filter (fun d => decide (remainingDaysTotal now cfg.expiry_dt = d)))
      ∧ rest.countP isStartupEvent = 0 := by
  obtain ⟨su, hsu⟩ := send_push_ok_of_serviceOk cfg
    (compose_message (remainingDaysTotal startNow cfg.expiry_dt)) outcomes h
  obtain ⟨rest, hr, ht, hs⟩ := pollLoop_spec cfg outcomes h polls
  exact ⟨su, rest, by simp [schedule_notifications, htok, hsu, hr], ht, hs⟩

-- ==================== Claim theorems ====================

/-- C1 (counterexample): the claim says a `now` past `expiry` always yields a
negative days-remaining, but one hour past expiry the ceiling is 0, not
negative. -/
theorem remainingDaysTotal_zero_one_hour_past_expiry :
    remainingDaysTotal (epochSeconds 2025 12 31 13 0) (epochSeconds 2025 12 31 12 0) = 0
    ∧ ¬ remainingDaysTotal (epochSeconds 2025 12 31 13 0) (epochSeconds 2025 12 31 12 0) < 0 := by
  rw [remainingDaysTotal_eval]
  exact ⟨by decide, by decide⟩

/-- C1 (amended): `remainingDaysTotal` is the ceiling of `(expiry − now)`
expressed in days — characterised by `(d−1)·86400 < expiry − now ≤ d·86400`;
a 23-hour remainder reports 1 day; the result is negative exactly when `now`
is at least one full day past `expiry` (a shorter overshoot yields 0); and the
2025-12-01T12:00Z / 2025-12-31T12:00Z scenario yields exactly 30. -/
theorem remainingDaysTotal_ceiling_days :
    (∀ now expiry d : Int, remainingDaysTotal now expiry = d ↔
        (d - 1) * 86400 < expiry - now ∧ expiry - now ≤ d * 86400)
    ∧ (∀ now : Int, remainingDaysTotal now (now + 82800) = 1)
    ∧ (∀ now expiry : Int, remainingDaysTotal now expiry < 0 ↔ expiry - now ≤ -86400)
    ∧ remainingDaysTotal (epochSeconds 2025 12 1 12 0) (epochSeconds 2025 12 31 12 0) = 30 := by
  refine ⟨remainingDaysTotal_eq_iff, ?_, ?_, ?_⟩
  · intro now
    rw [remainingDaysTotal_eq_iff]
    omega
  · intro now expiry
    rw [remainingDaysTotal_eval]
    omega
  · rw [remainingDaysTotal_eval]
    decide

/-- C2: on every polling iteration a checkpoint notification for offset `d`
fires exactly when the freshly recomputed days-remaining equals `d` (exact
integer equality); the triggered offsets of the whole run are the
poll-by-poll equality filters concatenated, so nothing is deduplicated
across polls — the offset reappears for every poll instant at which the
equality still holds. -/
theorem checkpoint_send_iff_exact_equality (cfg : SchedulerConfig)
    (outcomes : Nat → AttemptOutcome) (startNow : Int) (polls : List Int)
    (htok : tokenPresent cfg.hass_token = true) (hsvc : serviceOk cfg) :
    ∃ evs, schedule_notifications cfg outcomes startNow polls = Except.ok evs
      ∧ triggeredOffsets evs = polls.flatMap (fun now =>
          cfg.advance_days.filter (fun d =>
            decide (remainingDaysTotal now cfg.expiry_dt = d))) := by
  obtain ⟨su, rest, heq, ht, _⟩ :=
    schedule_notifications_shape cfg outcomes startNow polls htok hsvc
  refine ⟨_, heq, ?_⟩
  simpa [triggeredOffsets, List.filterMap_cons] using ht

/-- C2 witness: a concrete run over one poll 30 days before expiry. -/
theorem checkpoint_send_iff_exact_equality_witness :
    ∃ evs, schedule_notifications
        ⟨some "tok", "notify.mobile_app_myphone", 1, 60, [30, 14, 7, 3, 1],
          epochSeconds 2025 12 31 12 0, false⟩
        (fun _ => AttemptOutcome.status 200)
        (epochSeconds 2025 12 1 12 0) [epochSeconds 2025 12 1 12 0] = Except.ok evs
      ∧ triggeredOffsets evs = [epochSeconds 2025 12 1 12 0].flatMap (fun now =>
          ([30, 14, 7, 3, 1] : List Int).filter (fun d =>
            decide (remainingDaysTotal now (epochSeconds 2025 12 31 12 0) = d))) :=
  checkpoint_send_iff_exact_equality _ _ _ _ (by decide) (Or.inl (by decide))

/-- C3: `_compose_message` is total over the integers and follows the
negative / zero / positive policy, with the positive message carrying the
decimal rendering of exactly `d`. -/
theorem compose_message_policy :
    (∀ d : Int, d < 0 → compose_message d = "Tuya IOT expired")
    ∧ compose_message 0 = "Tuya IOT expires today"
    ∧ (∀ d : Int, 0 < d →
        compose_message d = "Tuya IOT expires in " ++ toString d ++ " days") := by
  refine ⟨?_, rfl, ?_⟩
  · intro d hd
    simp [compose_message, hd]
  · intro d hd
    have h1 : ¬ d < 0 := by omega
    have h2 : ¬ d = 0 := by omega
    simp [compose_message, h1, h2]

/-- C3 witness: the spec's sample points −5, 0 and 7. -/
theorem compose_message_policy_witness :
    compose_message (-5) = "Tuya IOT expired"
    ∧ compose_message 7 = "Tuya IOT expires in " ++ toString (7 : Int) ++ " days" :=
  ⟨compose_message_policy.1 (-5) (by decide), compose_message_policy.2.2 7 (by decide)⟩

/-- C4: with the token present and a well-formed target service,
`_send_push` issues exactly `push_count` POST attempts whatever the
outcomes are (no early exit on success, no abort on failure), with exactly
`push_count − 1` sleeps of the configured duration between successive
attempts and none after the final attempt (the trace ends in a POST). -/
theorem send_push_issues_all_attempts (cfg : SchedulerConfig) (msg : String)
    (outcomes : Nat → AttemptOutcome)
    (htok : tokenPresent cfg.hass_token = true)
    (hsvc : (splitOnPred (fun c => c == '.') cfg.notify_service.toList).length = 2) :
    ∃ evs, send_push cfg msg outcomes = Except.ok evs
      ∧ evs.countP isPostEvent = cfg.push_count
      ∧ evs.countP isSleepEvent = cfg.push_count - 1
      ∧ (∀ s, PushEvent.sleepSec s ∈ evs → s = cfg.push_interval_min * 60)
      ∧ (∀ i, i < cfg.push_count → ∃ url, PushEvent.post url msg (outcomes i) ∈ evs)
      ∧ (1 ≤ cfg.push_count → ∃ url,
          evs.getLast? = some (PushEvent.post url msg (outcomes (cfg.push_count - 1)))) := by
  obtain ⟨domain, service, hs⟩ := List.length_eq_two.mp hsvc
  refine ⟨_, send_push_eq cfg msg outcomes domain service htok hs,
    pushAttempts_post_count _ _ _ _ _,
    pushAttempts_sleep_count _ _ _ _ _,
    fun s hsl => sendAttemptLoop_sleep_val _ _ _ _ _ _ _ hsl,
    fun i hi => ⟨_, sendAttemptLoop_mem_post _ _ _ _ _ _ i (List.mem_range.mpr hi)⟩,
    fun hc => ⟨_, pushAttempts_getLast _ _ _ _ _ hc⟩⟩

/-- C4 witness: `push_count = 3`, first attempt answering HTTP 500 — all
three attempts still appear. -/
theorem send_push_issues_all_attempts_witness :
    ∃ evs, send_push
        ⟨some "tok", "notify.mobile_app_myphone", 3, 1, [], 0, false⟩ "hello"
        (fun i => if i = 0 then AttemptOutcome.status 500 else AttemptOutcome.status 200)
          = Except.ok evs
      ∧ evs.countP isPostEvent = 3
      ∧ evs.countP isSleepEvent = 3 - 1
      ∧ (∀ s, PushEvent.sleepSec s ∈ evs → s = 1 * 60)
      ∧ (∀ i, i < 3 → ∃ url, PushEvent.post url "hello"
          (if i = 0 then AttemptOutcome.status 500 else AttemptOutcome.status 200) ∈ evs)
      ∧ (1 ≤ 3 → ∃ url, evs.getLast? = some (PushEvent.post url "hello"
          (if 3 - 1 = 0 then AttemptOutcome.status 500 else AttemptOutcome.status 200))) :=
  send_push_issues_all_attempts _ _ _ (by decide) (by decide)

/-- C5: with the credential absent (the Python-falsy token), the scheduler
loop produces no events at all — no startup send and no polling iteration —
and the discovery diagnostic issues no request and returns `[]`. -/
theorem missing_token_no_requests (cfg : SchedulerConfig)
    (outcomes : Nat → AttemptOutcome) (startNow : Int) (polls : List Int)
    (responses : Nat → DiscResponse)
    (h : tokenPresent cfg.hass_token = false) :
    schedule_notifications cfg outcomes startNow polls = Except.ok []
    ∧ list_mobile_apps cfg.hass_token responses = ([], []) := by
  constructor
  · simp [schedule_notifications, h]
  · simp [list_mobile_apps, h]

/-- C5 witness: an unset SUPERVISOR_TOKEN. -/
theorem missing_token_no_requests_witness :
    schedule_notifications
        ⟨none, "notify.mobile_app_myphone", 1, 60, [30, 14, 7, 3, 1], 0, false⟩
        (fun _ => AttemptOutcome.status 200) 0 [0, 3600] = Except.ok []
    ∧ list_mobile_apps none (fun _ => DiscResponse.transportError) = ([], []) :=
  missing_token_no_requests _ _ _ _ _ (by decide)

/-- C9: with the credential present, the trace starts with exactly one
startup status send whose message is composed from the days remaining at the
startup instant — unconditionally, with no reference to the checkpoint set —
and no later event is a startup send, so every checkpoint send is strictly
after it. -/
theorem startup_notification_first (cfg : SchedulerConfig)
    (outcomes : Nat → AttemptOutcome) (startNow : Int) (polls : List Int)
    (htok : tokenPresent cfg.hass_token = true) (hsvc : serviceOk cfg) :
    ∃ su rest, schedule_notifications cfg outcomes startNow polls =
        Except.ok (SchedEvent.startupSend
          (compose_message (remainingDaysTotal startNow cfg.expiry_dt)) su :: rest)
      ∧ rest.countP isStartupEvent = 0 := by
  obtain ⟨su, rest, heq, _, hs⟩ :=
    schedule_notifications_shape cfg outcomes startNow polls htok hsvc
  exact ⟨su, rest, heq, hs⟩

/-- C9 witness: a concrete run with one poll. -/
theorem startup_notification_first_witness :
    ∃ su rest, schedule_notifications
        ⟨some "tok", "notify.mobile_app_myphone", 1, 60, [30, 14, 7, 3, 1],
          epochSeconds 2025 12 31 12 0, false⟩
        (fun _ => AttemptOutcome.status 200)
        (epochSeconds 2025 12 1 12 0) [epochSeconds 2025 12 1 13 0] =
        Except.ok (SchedEvent.startupSend
          (compose_message (remainingDaysTotal (epochSeconds 2025 12 1 12 0)
            (epochSeconds 2025 12 31 12 0))) su :: rest)
      ∧ rest.countP isStartupEvent = 0 :=
  startup_notification_first _ _ _ _ (by decide) (Or.inl (by decide))

/-- C10: with the token present and a non-empty target service, delivery is
safe exactly when the identifier has one dot: one dot makes the split yield
two parts and the full attempt loop runs; zero dots or several make the
tuple unpacking raise `ValueError` outside the per-attempt handler, and the
scheduler loop aborts with that error. -/
theorem notify_service_split_safety (cfg : SchedulerConfig) (msg : String)
    (outcomes : Nat → AttemptOutcome) (startNow : Int) (polls : List Int)
    (htok : tokenPresent cfg.hass_token = true)
    (hne : cfg.notify_service ≠ "") :
    (cfg.notify_service.toList.count '.' = 1 →
      ∃ evs, send_push cfg msg outcomes = Except.ok evs
        ∧ evs.countP isPostEvent = cfg.push_count)
    ∧ (cfg.notify_service.toList.count '.' ≠ 1 →
      send_push cfg msg outcomes = Except.error PyError.valueError
      ∧ schedule_notifications cfg outcomes startNow polls
          = Except.error PyError.valueError) := by
  have hlen : (splitOnPred (fun c => c == '.') cfg.notify_service.toList).length
      = cfg.notify_service.toList.count '.' + 1 := by
    rw [splitOnPred_length, List.count_eq_countP]
  constructor
  · intro h1
    have hlen2 : (splitOnPred (fun c => c == '.') cfg.notify_service.toList).length = 2 := by
      omega
    obtain ⟨domain, service, hs⟩ := List.length_eq_two.mp hlen2
    exact ⟨_, send_push_eq cfg msg outcomes domain service htok hs,
      pushAttempts_post_count _ _ _ _ _⟩
  · intro h1
    have hlen2 : (splitOnPred (fun c => c == '.') cfg.notify_service.toList).length ≠ 2 := by
      omega
    have herr : ∀ m, send_push cfg m outcomes = Except.error PyError.valueError := by
      intro m
      unfold send_push
      rw [htok]
      simp only [Bool.not_true, Bool.false_or]
      rw [if_neg (by simp [hne])]
      rcases hsp : splitOnPred (fun c => c == '.') cfg.notify_service.toList with
        _ | ⟨a, _ | ⟨b, _ | ⟨c, tl⟩⟩⟩
      · exact absurd hsp (splitOnPred_ne_nil _ _)
      · rfl
      · exact absurd (by rw [hsp] at hlen2; exact absurd rfl hlen2) (fun h => h)
      · rfl
    refine ⟨herr msg, ?_⟩
    simp [schedule_notifications, htok, herr]

/-- C10 witness: a dotless non-empty service identifier raises and aborts
the loop. -/
theorem notify_service_split_safety_witness :
    send_push ⟨some "tok", "mobile_app_myphone", 1, 60, [], 0, false⟩ "hello"
        (fun _ => AttemptOutcome.status 200) = Except.error PyError.valueError
    ∧ schedule_notifications ⟨some "tok", "mobile_app_myphone", 1, 60, [], 0, false⟩
        (fun _ => AttemptOutcome.status 200) 0 [] = Except.error PyError.valueError :=
  (notify_service_split_safety _ _ _ 0 [] (by decide) (by decide)).2 (by decide)

-- ==================== Parsing claim helpers and theorems ====================

theorem fieldNat?_some (maxLen : Nat) (cs : List Char) (n : Nat)
    (h : fieldNat? maxLen cs = some n) : pyInt? cs = some n := by
  unfold fieldNat? at h
  split at h
  · exact h
  · exact absurd h (by simp)

theorem validYMD_month_le (y m d : Nat) (h : validYMD y m d = true) : m ≤ 12 := by
  unfold validYMD at h
  simp only [Bool.and_eq_true, decide_eq_true_eq] at h
  omega

/-- Under the domain hypotheses of the `auto` branch (no ISO parse, three
numeric components, four-digit year last), a day-first-resolvable input
yields day `p0`, month `p1`. -/
theorem resolveDate_auto_dayfirst (s : String) (f0 f1 f2 : List Char) (p0 p1 y : Nat)
    (hiso : isoparse s = none)
    (hsplit : reSplitDate s = [f0, f1, f2])
    (h0 : fieldNat? 2 f0 = some p0) (h1 : fieldNat? 2 f1 = some p1)
    (h2 : f2.length = 4) (hy : pyInt? f2 = some y)
    (hdf : 12 < p0 ∨ (p0 ≤ 12 ∧ p1 ≤ 12))
    (hv : validYMD y p1 p0 = true) :
    resolveDate s "auto" = some (y, p1, p0) := by
  have hp0 : pyInt? f0 = some p0 := fieldNat?_some 2 f0 p0 h0
  have hp1 : pyInt? f1 = some p1 := fieldNat?_some 2 f1 p1 h1
  have hp1le : p1 ≤ 12 := validYMD_month_le y p1 p0 hv
  have hdt : ∀ df : Bool, (12 < p0 ∨ df = true) → dtparse s df = some (y, p1, p0) := by
    intro df hcase
    unfold dtparse
    rw [hsplit]
    simp only [h0, h1, if_pos h2, hy]
    rcases Nat.lt_or_ge 12 p0 with hgt | hle
    · have hc1 : (decide (p0 > 12) && decide (p1 ≤ 12)) = true := by
        simp [hgt, hp1le]
      simp only [hc1, if_true]
      simp [mkValidDate, hv]
    · have hdf' : df = true := by
        rcases hcase with h | h
        · omega
        · exact h
      subst hdf'
      have hc1 : (decide (p0 > 12) && decide (p1 ≤ 12)) = false := by
        simp; omega
      have hc2 : (decide (p0 ≤ 12) && decide (p1 > 12)) = false := by
        simp; omega
      have hc3 : (decide (p0 ≤ 12) && decide (p1 ≤ 12)) = true := by
        simp; omega
      simp only [hc1, hc2, hc3, Bool.false_eq_true, if_false, if_true]
      simp [mkValidDate, hv]
  unfold resolveDate
  rw [hiso]
  rw [if_neg (by decide : ¬ ("auto" : String) = "iso")]
  rw [if_neg (by decide : ¬ (("auto" : String) = "us" ∨ ("auto" : String) = "eu"))]
  rw [hsplit]
  simp only [hp0, hp1]
  apply hdt
  rcases hdf with h | h
  · exact Or.inl h
  · right
    simp [h.1, h.2]

/-- C6: a date string accepted by the strict ISO parse is taken as-is, before
the format hint is even consulted, so the resolved calendar date equals the
ISO date for every `date_format` and every time string. -/
theorem iso_accepted_regardless_of_hint (date_str : String) (y m d : Nat)
    (h : isoparse (pyStrip date_str) = some (y, m, d)) (fmt time_str : String) :
    (parse_expiry_date date_str time_str fmt).map (fun r => (r.year, r.month, r.day))
      = some (y, m, d) := by
  simp only [parse_expiry_date, resolveDate, h]
  simp

/-- C6 witness: `2025-12-31` resolves to that date even under the `eu` hint. -/
theorem iso_accepted_regardless_of_hint_witness :
    (parse_expiry_date "2025-12-31" "12:00" "eu").map (fun r => (r.year, r.month, r.day))
      = some (2025, 12, 31) :=
  iso_accepted_regardless_of_hint "2025-12-31" 2025 12 31 (by decide) "eu" "12:00"

/-- C7: in the `auto` branch (reached when ISO parsing fails) over three
numeric components with a four-digit year last, a first component above 12 is
taken as the day; and when the first two components are both at most 12 the
day-first heuristic fires, resolving to day `p0`, month `p1` — a fixed
function of the input, hence deterministic. -/
theorem auto_dayfirst_heuristic (date_str time_str : String)
    (f0 f1 f2 : List Char) (p0 p1 y : Nat)
    (hiso : isoparse (pyStrip date_str) = none)
    (hsplit : reSplitDate (pyStrip date_str) = [f0, f1, f2])
    (h0 : fieldNat? 2 f0 = some p0) (h1 : fieldNat? 2 f1 = some p1)
    (h2 : f2.length = 4) (hy : pyInt? f2 = some y) :
    (12 < p0 → validYMD y p1 p0 = true →
      (parse_expiry_date date_str time_str "auto").map (fun r => (r.day, r.month))
        = some (p0, p1))
    ∧ (p0 ≤ 12 → p1 ≤ 12 → validYMD y p1 p0 = true →
      (parse_expiry_date date_str time_str "auto").map (fun r => (r.day, r.month))
        = some (p0, p1)) := by
  constructor
  · intro hgt hv
    have hres := resolveDate_auto_dayfirst (pyStrip date_str) f0 f1 f2 p0 p1 y
      hiso hsplit h0 h1 h2 hy (Or.inl hgt) hv
    simp only [parse_expiry_date, hres]
    simp
  · intro hle0 hle1 hv
    have hres := resolveDate_auto_dayfirst (pyStrip date_str) f0 f1 f2 p0 p1 y
      hiso hsplit h0 h1 h2 hy (Or.inr ⟨hle0, hle1⟩) hv
    simp only [parse_expiry_date, hres]
    simp

/-- C7 witness: `13/05/2025` under `auto` resolves to day 13, month 5. -/
theorem auto_dayfirst_heuristic_witness :
    (parse_expiry_date "13/05/2025" "12:00" "auto").map (fun r => (r.day, r.month))
      = some (13, 5) :=
  (auto_dayfirst_heuristic "13/05/2025" "12:00"
      "13".toList "05".toList "2025".toList 13 5 2025
      (by decide) (by decide) (by decide) (by decide) (by decide) (by decide)).1
    (by decide) (by decide)

/-- C8: once the date part has resolved, a time string that fails the
24-hour `HH:MM` parse defaults the time to midnight without failing the
whole parse, and one that parses sets the hour and minute accordingly. -/
theorem time_defaults_to_midnight (date_str time_str fmt : String) (y m d : Nat)
    (hdate : resolveDate (pyStrip date_str) fmt = some (y, m, d)) :
    (strptimeHM (pyStrip (if time_str.isEmpty then "00:00" else time_str)) = none →
      parse_expiry_date date_str time_str fmt = some ⟨y, m, d, 0, 0⟩)
    ∧ (∀ hh mm,
      strptimeHM (pyStrip (if time_str.isEmpty then "00:00" else time_str)) = some (hh, mm) →
      parse_expiry_date date_str time_str fmt = some ⟨y, m, d, hh, mm⟩) := by
  constructor
  · intro ht
    simp [parse_expiry_date, hdate, ht]
  · intro hh mm ht
    simp [parse_expiry_date, hdate, ht]

/-- C8 witness: an unparsable time string falls back to midnight. -/
theorem time_defaults_to_midnight_witness :
    parse_expiry_date "2025-12-31" "banana" "auto" =
      some ⟨2025, 12, 31, 0, 0⟩ :=
  (time_defaults_to_midnight "2025-12-31" "banana" "auto" 2025 12 31 (by decide)).1
    (by decide)

